import Mathlib

/-!
Verification of the terminal dashboard demo (`src/app.rs`).

The application state, key handling, event dispatch and run loop are
translated directly from `src/app.rs`.  The layout partition performed by
the external `ratatui::Layout` solver is modelled from the specification
(section 4.2), since the solver's code is not part of this repository.
-/

namespace BackgroundBlocks

/-- Key codes delivered by the terminal event source (from
`crossterm::event::KeyCode`); only the variants the program inspects are
distinguished, all others collapse into `otherKey`. -/
inductive KeyCode where
  | esc
  | char (c : Char)
  | otherKey (tag : Nat)
deriving DecidableEq, Repr

/-- Modifier bitflags of a key event (from `crossterm::event::KeyModifiers`). -/
structure KeyModifiers where
  shift : Bool
  control : Bool
  alt : Bool
  superKey : Bool
  hyper : Bool
  meta : Bool
deriving DecidableEq, Repr

/-- The empty modifier set (`KeyModifiers::NONE`). -/
def KeyModifiers.noneMods : KeyModifiers :=
  ⟨false, false, false, false, false, false⟩

/-- Exactly the control flag (`KeyModifiers::CONTROL`): the Rust pattern
`(KeyModifiers::CONTROL, ..)` matches only this exact value. -/
def KeyModifiers.controlMods : KeyModifiers :=
  ⟨false, true, false, false, false, false⟩

/-- Press/release/repeat kind of a key event (from
`crossterm::event::KeyEventKind`). -/
inductive KeyEventKind where
  | press
  | release
  | rep
deriving DecidableEq, Repr

/-- A key event: code, modifier set and kind (from `crossterm::event::KeyEvent`). -/
structure KeyEvent where
  code : KeyCode
  modifiers : KeyModifiers
  kind : KeyEventKind
deriving DecidableEq, Repr

/-- Terminal events (from `crossterm::event::Event`); variants the program
does not branch on collapse into `otherEvent`. -/
inductive Event where
  | key (k : KeyEvent)
  | mouse
  | resize (w h : Nat)
  | otherEvent
deriving DecidableEq, Repr

/-- The application state: the single `exit` flag (struct `App` in
`src/app.rs`).  The spec's `running` is the negation of `exit`. -/
structure App where
  exit : Bool
deriving DecidableEq, Repr

/-- A freshly constructed `App` (`App::new` / `App::default`): `exit = false`. -/
def App.new : App := ⟨false⟩

/-- The spec's `running` flag: the application keeps running while `exit`
is false. -/
def App.running (a : App) : Bool := !a.exit

/-- Set `exit` to true to quit the application (`App::quit`). -/
def App.quit (a : App) : App := { a with exit := true }

/-- Key handling (`App::on_key_event`): the Rust match quits on
`(_, Esc | Char('q'))` and on `(KeyModifiers::CONTROL, Char('c') | Char('C'))`;
every other combination is a no-op. -/
def App.on_key_event (a : App) (key : KeyEvent) : App :=
  if key.code = KeyCode.esc ∨ key.code = KeyCode.char 'q'
      ∨ (key.modifiers = KeyModifiers.controlMods ∧
          (key.code = KeyCode.char 'c' ∨ key.code = KeyCode.char 'C'))
  then a.quit
  else a

/-- Event dispatch (the pure part of `App::handle_crossterm_events`):
only key events whose kind is `Press` are acted on; mouse, resize, key
release/repeat and all other events are discarded. -/
def App.handleEvent (a : App) (e : Event) : App :=
  match e with
  | Event.key k => if k.kind = KeyEventKind.press then a.on_key_event k else a
  | Event.mouse => a
  | Event.resize _ _ => a
  | Event.otherEvent => a

/-- Outcome of the main loop model: normal return, a propagated collaborator
error, or exhaustion of the explicit fuel bound (the Rust loop has no such
bound; fuel only makes the model total). -/
inductive RunResult (E : Type) where
  | ok
  | fail (e : E)
  | fuelOut
deriving DecidableEq, Repr

/-- The main loop (`App::run`): while `exit` is false, draw one frame via the
terminal collaborator, then read and handle one event; a `?`-propagated error
from either collaborator aborts the loop immediately.  `draw i` and `readEv i`
are the collaborator results at the i-th iteration; `fuel` bounds the number
of iterations the model unfolds. -/
def runLoop {E : Type} (draw : Nat → Except E Unit) (readEv : Nat → Except E Event) :
    Nat → App → Nat → RunResult E
  | 0, a, _ => if a.exit then RunResult.ok else RunResult.fuelOut
  | fuel + 1, a, i =>
      if a.exit then RunResult.ok
      else
        match draw i with
        | Except.error e => RunResult.fail e
        | Except.ok _ =>
            match readEv i with
            | Except.error e => RunResult.fail e
            | Except.ok ev => runLoop draw readEv fuel (a.handleEvent ev) (i + 1)

/-! Layout model.  The partition of the terminal canvas is performed in
`App::render` through `ratatui`'s `Layout` solver, an external collaborator
whose code is not part of this repository; the partition itself is therefore
modelled from the specification, section 4.2. -/

/-- A rectangle of terminal cells (`ratatui::layout::Rect`): position and
size.  Coordinates are modelled as naturals. -/
structure Rect where
  x : Nat
  y : Nat
  width : Nat
  height : Nat
deriving DecidableEq, Repr

/-- The set of cells (column, row) covered by a rectangle. -/
def Rect.cells (r : Rect) : Set (Nat × Nat) :=
  { p | r.x ≤ p.1 ∧ p.1 < r.x + r.width ∧ r.y ≤ p.2 ∧ p.2 < r.y + r.height }

/-- Two rectangles are disjoint when no cell lies in both. -/
def Rect.disjointWith (a b : Rect) : Prop :=
  ∀ p : Nat × Nat, p ∈ a.cells → p ∈ b.cells → False

/-- The four vertical bands of the top-level split. -/
structure Bands where
  header : Rect
  top : Rect
  mid : Rect
  bottom : Rect
deriving DecidableEq, Repr

/-- Modelled from the spec: the top-level vertical split of `App::render`
(`Layout::vertical([Length(1), Fill(1), Fill(2), Fill(1)]).spacing(1).margin(4)`),
whose solver lives in the external `ratatui` crate.  A uniform margin of 4
cells is removed on all sides (saturating); band 0 is a fixed 1-cell header
(clamped to the available inner height, since the solver never places a
segment outside the area); bands 1-3 share the remaining height after three
1-cell spacings in ratio 1:2:1, rounding by cumulative proportional
boundaries. -/
def vertBands (r : Rect) : Bands :=
  let ix := r.x + 4
  let iy := r.y + 4
  let iw := r.width - 8
  let ih := r.height - 8
  let hh := min 1 ih
  let avail := ih - hh - 3
  let th := avail / 4
  let mh := avail * 3 / 4 - avail / 4
  let bh := avail - avail * 3 / 4
  { header := ⟨ix, iy, iw, hh⟩
    top := ⟨ix, iy + hh + 1, iw, th⟩
    mid := ⟨ix, iy + hh + 1 + th + 1, iw, mh⟩
    bottom := ⟨ix, iy + hh + 1 + th + 1 + mh + 1, iw, bh⟩ }

/-- Modelled from the spec: the top band's horizontal split of `App::render`
(`Layout::horizontal([Fill(1); 2]).spacing(2)`): two equal-width regions
separated by a 2-cell spacing, the right region taking the odd remainder. -/
def splitEven (r : Rect) : Rect × Rect :=
  let avail := r.width - 2
  let lw := avail / 2
  (⟨r.x, r.y, lw, r.height⟩, ⟨r.x + lw + 2, r.y, avail - lw, r.height⟩)

/-- Modelled from the spec: the mid band's horizontal split of `App::render`
(`Layout::horizontal([Fill(1), Fill(2)]).spacing(2)`): weights 1:2 with a
2-cell spacing, rounding toward the larger share. -/
def splitOneTwo (r : Rect) : Rect × Rect :=
  let avail := r.width - 2
  let lw := avail / 3
  (⟨r.x, r.y, lw, r.height⟩, ⟨r.x + lw + 2, r.y, avail - lw, r.height⟩)

/-- The four panel regions of one frame. -/
structure Panels where
  cpu : Rect
  gpu : Rect
  disk : Rect
  memory : Rect
deriving DecidableEq, Repr

/-- The full render partition of `App::render`: vertical bands, then the top
band split evenly into CPU (left) and GPU (right), and the mid band split
1:2 into Disk (left) and Memory (right).  The bottom band is unused. -/
def panelRegions (r : Rect) : Panels :=
  let b := vertBands r
  { cpu := (splitEven b.top).1
    gpu := (splitEven b.top).2
    disk := (splitOneTwo b.mid).1
    memory := (splitOneTwo b.mid).2 }

/-! Sample series generation (`render_graph` / `render_memory`): the series
for a panel interior of width `w` has `w * 2` elements, the multiplication
performed on Rust `u16` values (wrapping modulo 2^16); each element is one
draw from the random collaborator, a uniform double in [0,1). -/

/-- Number of samples generated for an interior of width `w`:
`inner.width * 2` computed in 16-bit unsigned arithmetic (from the range
`0..inner.width * 2` in `render_graph` and `render_memory`). -/
def sampleCount (w : Nat) : Nat := w * 2 % 65536

/-- The sample series of one frame for an interior of width `w`, with the
random collaborator injected as the stream `rng` of its successive draws. -/
def sampleSeries (rng : Nat → ℝ) (w : Nat) : List ℝ :=
  (List.range (sampleCount w)).map rng

/-- C1 (counterexample): pressing 'Q' with no modifiers leaves the state
unchanged — `running` stays true — whereas the claim says it sets `running`
to false. -/
theorem c1_counterexample :
    App.new.on_key_event ⟨KeyCode.char 'Q', KeyModifiers.noneMods, KeyEventKind.press⟩
      = App.new ∧
    (App.new.on_key_event ⟨KeyCode.char 'Q', KeyModifiers.noneMods, KeyEventKind.press⟩).running
      = true := by
  decide

/-- C1 (amended): for every key-press event, pressing Escape or 'q' with any
modifier set, or 'c'/'C' with exactly the control modifier, sets `exit` to
true (hence `running` to false), idempotently; every other key/modifier
combination leaves the state unchanged. -/
theorem c1_key_transitions (a : App) (k : KeyEvent) :
    ((k.code = KeyCode.esc ∨ k.code = KeyCode.char 'q'
        ∨ (k.modifiers = KeyModifiers.controlMods ∧
            (k.code = KeyCode.char 'c' ∨ k.code = KeyCode.char 'C'))) →
      (a.on_key_event k).exit = true)
    ∧ (¬ (k.code = KeyCode.esc ∨ k.code = KeyCode.char 'q'
        ∨ (k.modifiers = KeyModifiers.controlMods ∧
            (k.code = KeyCode.char 'c' ∨ k.code = KeyCode.char 'C'))) →
      a.on_key_event k = a)
    ∧ (a.on_key_event k).on_key_event k = a.on_key_event k := by
  refine ⟨fun h => ?_, fun h => ?_, ?_⟩
  · simp [App.on_key_event, h, App.quit]
  · simp [App.on_key_event, h]
  · by_cases h : k.code = KeyCode.esc ∨ k.code = KeyCode.char 'q'
        ∨ (k.modifiers = KeyModifiers.controlMods ∧
            (k.code = KeyCode.char 'c' ∨ k.code = KeyCode.char 'C'))
    · simp [App.on_key_event, h, App.quit]
    · simp [App.on_key_event, h]

/-- C1 (amended, witness): pressing Escape quits a fresh application. -/
theorem c1_witness :
    (App.new.on_key_event ⟨KeyCode.esc, KeyModifiers.noneMods, KeyEventKind.press⟩).exit
      = true :=
  (c1_key_transitions App.new
      ⟨KeyCode.esc, KeyModifiers.noneMods, KeyEventKind.press⟩).1 (Or.inl rfl)

/-- C9: modifiers are ignored for the Escape and lowercase 'q' key codes —
for every modifier set `m` a key press of Escape or 'q' sets the exit flag,
whereas 'Q' without the control modifier leaves the state unchanged. -/
theorem c9_modifiers_ignored (a : App) (m : KeyModifiers) :
    (a.on_key_event ⟨KeyCode.esc, m, KeyEventKind.press⟩).exit = true
    ∧ (a.on_key_event ⟨KeyCode.char 'q', m, KeyEventKind.press⟩).exit = true
    ∧ (m.control = false →
        a.on_key_event ⟨KeyCode.char 'Q', m, KeyEventKind.press⟩ = a) := by
  refine ⟨?_, ?_, fun hm => ?_⟩
  · simp [App.on_key_event, App.quit]
  · simp [App.on_key_event, App.quit]
  · have hcond : ¬ ((KeyCode.char 'Q') = KeyCode.esc
        ∨ (KeyCode.char 'Q') = KeyCode.char 'q'
        ∨ (m = KeyModifiers.controlMods ∧
            ((KeyCode.char 'Q') = KeyCode.char 'c'
              ∨ (KeyCode.char 'Q') = KeyCode.char 'C'))) := by
      rintro (h | h | ⟨hm2, h⟩)
      · exact absurd h (by decide)
      · exact absurd h (by decide)
      · rw [hm2] at hm
        exact absurd hm (by decide)
    simp only [App.on_key_event]
    rw [if_neg hcond]

/-- C9 (witness): Ctrl+Escape quits; 'Q' with no modifiers is a no-op. -/
theorem c9_witness :
    (App.new.on_key_event ⟨KeyCode.esc, KeyModifiers.controlMods, KeyEventKind.press⟩).exit
      = true ∧
    App.new.on_key_event ⟨KeyCode.char 'Q', KeyModifiers.noneMods, KeyEventKind.press⟩
      = App.new :=
  ⟨(c9_modifiers_ignored App.new KeyModifiers.controlMods).1,
   (c9_modifiers_ignored App.new KeyModifiers.noneMods).2.2 rfl⟩

/-- C7: starting from `running = true`, a resize event, a mouse event and a
key-release 'q' event each leave `running` true; a subsequent key-press 'q'
event sets `running` to false; in general mouse, resize and non-press key
events never change the state. -/
theorem c7_event_dispatch :
    ((App.new.handleEvent (Event.resize 80 24)).running = true
      ∧ (((App.new.handleEvent (Event.resize 80 24)).handleEvent Event.mouse).running = true)
      ∧ ((((App.new.handleEvent (Event.resize 80 24)).handleEvent Event.mouse).handleEvent
            (Event.key ⟨KeyCode.char 'q', KeyModifiers.noneMods, KeyEventKind.release⟩)).running
          = true)
      ∧ (((((App.new.handleEvent (Event.resize 80 24)).handleEvent Event.mouse).handleEvent
            (Event.key ⟨KeyCode.char 'q', KeyModifiers.noneMods, KeyEventKind.release⟩)).handleEvent
            (Event.key ⟨KeyCode.char 'q', KeyModifiers.noneMods, KeyEventKind.press⟩)).running
          = false))
    ∧ (∀ (a : App) (w h : Nat), a.handleEvent Event.mouse = a ∧ a.handleEvent (Event.resize w h) = a)
    ∧ (∀ (a : App) (k : KeyEvent), k.kind ≠ KeyEventKind.press →
        a.handleEvent (Event.key k) = a) := by
  refine ⟨by decide, fun a w h => ⟨rfl, rfl⟩, fun a k hk => ?_⟩
  simp [App.handleEvent, hk]

/-- C7 (witness): a key-release 'q' event on a fresh application is a no-op. -/
theorem c7_witness :
    App.new.handleEvent
        (Event.key ⟨KeyCode.char 'q', KeyModifiers.noneMods, KeyEventKind.release⟩)
      = App.new :=
  c7_event_dispatch.2.2 App.new
    ⟨KeyCode.char 'q', KeyModifiers.noneMods, KeyEventKind.release⟩ (by decide)

/-- C8: the run loop returns `Ok` as soon as `exit` is true; while `exit` is
false it draws one frame then reads one event per iteration; an error from
the draw or the event-read collaborator propagates immediately, with no
retry and no further iteration; on success the loop recurses on the updated
state. -/
theorem c8_run_loop {E : Type} (draw : Nat → Except E Unit) (readEv : Nat → Except E Event) :
    (∀ (fuel : Nat) (a : App) (i : Nat), a.exit = true →
        runLoop draw readEv fuel a i = RunResult.ok)
    ∧ (∀ (fuel : Nat) (a : App) (i : Nat) (e : E), a.exit = false →
        draw i = Except.error e →
        runLoop draw readEv (fuel + 1) a i = RunResult.fail e)
    ∧ (∀ (fuel : Nat) (a : App) (i : Nat) (e : E), a.exit = false →
        draw i = Except.ok () → readEv i = Except.error e →
        runLoop draw readEv (fuel + 1) a i = RunResult.fail e)
    ∧ (∀ (fuel : Nat) (a : App) (i : Nat) (ev : Event), a.exit = false →
        draw i = Except.ok () → readEv i = Except.ok ev →
        runLoop draw readEv (fuel + 1) a i
          = runLoop draw readEv fuel (a.handleEvent ev) (i + 1)) := by
  refine ⟨fun fuel a i ha => ?_, fun fuel a i e ha hd => ?_,
      fun fuel a i e ha hd hr => ?_, fun fuel a i ev ha hd hr => ?_⟩
  · cases fuel <;> simp [runLoop, ha]
  · simp [runLoop, ha, hd]
  · simp [runLoop, ha, hd, hr]
  · simp [runLoop, ha, hd, hr]

/-- C8 (witness): with `exit` already true the loop returns `Ok` at once. -/
theorem c8_witness :
    runLoop (fun _ => (Except.ok () : Except Unit Unit)) (fun _ => Except.ok Event.mouse)
      5 ⟨true⟩ 0 = RunResult.ok :=
  (c8_run_loop (fun _ => (Except.ok () : Except Unit Unit))
      (fun _ => Except.ok Event.mouse)).1 5 ⟨true⟩ 0 rfl

/-- C2: for every Canvas with width at least 8 times the margin and height at
least the sum of the minimum band heights (margins, header and spacing: 12
rows), the four Panel regions are pairwise non-overlapping, each lies
entirely within the Canvas, and together they cover a strict subset of the
Canvas (some cell stays uncovered). -/
theorem c2_panel_partition (x y w h : Nat) (hw : 32 ≤ w) (hh : 12 ≤ h) :
    ((panelRegions ⟨x, y, w, h⟩).cpu.cells ⊆ Rect.cells ⟨x, y, w, h⟩)
    ∧ ((panelRegions ⟨x, y, w, h⟩).gpu.cells ⊆ Rect.cells ⟨x, y, w, h⟩)
    ∧ ((panelRegions ⟨x, y, w, h⟩).disk.cells ⊆ Rect.cells ⟨x, y, w, h⟩)
    ∧ ((panelRegions ⟨x, y, w, h⟩).memory.cells ⊆ Rect.cells ⟨x, y, w, h⟩)
    ∧ Rect.disjointWith (panelRegions ⟨x, y, w, h⟩).cpu (panelRegions ⟨x, y, w, h⟩).gpu
    ∧ Rect.disjointWith (panelRegions ⟨x, y, w, h⟩).cpu (panelRegions ⟨x, y, w, h⟩).disk
    ∧ Rect.disjointWith (panelRegions ⟨x, y, w, h⟩).cpu (panelRegions ⟨x, y, w, h⟩).memory
    ∧ Rect.disjointWith (panelRegions ⟨x, y, w, h⟩).gpu (panelRegions ⟨x, y, w, h⟩).disk
    ∧ Rect.disjointWith (panelRegions ⟨x, y, w, h⟩).gpu (panelRegions ⟨x, y, w, h⟩).memory
    ∧ Rect.disjointWith (panelRegions ⟨x, y, w, h⟩).disk (panelRegions ⟨x, y, w, h⟩).memory
    ∧ ∃ p : Nat × Nat, p ∈ Rect.cells ⟨x, y, w, h⟩
        ∧ p ∉ (panelRegions ⟨x, y, w, h⟩).cpu.cells
        ∧ p ∉ (panelRegions ⟨x, y, w, h⟩).gpu.cells
        ∧ p ∉ (panelRegions ⟨x, y, w, h⟩).disk.cells
        ∧ p ∉ (panelRegions ⟨x, y, w, h⟩).memory.cells := by
  have hmin : min 1 (h - 8) = 1 := Nat.min_eq_left (by omega)
  refine ⟨?_, ?_, ?_, ?_, ?_, ?_, ?_, ?_, ?_, ?_, ?_⟩
  case _ => intro p hp; simp only [panelRegions, vertBands, splitEven, splitOneTwo, Rect.cells,
      Set.mem_setOf_eq, hmin] at hp ⊢; omega
  case _ => intro p hp; simp only [panelRegions, vertBands, splitEven, splitOneTwo, Rect.cells,
      Set.mem_setOf_eq, hmin] at hp ⊢; omega
  case _ => intro p hp; simp only [panelRegions, vertBands, splitEven, splitOneTwo, Rect.cells,
      Set.mem_setOf_eq, hmin] at hp ⊢; omega
  case _ => intro p hp; simp only [panelRegions, vertBands, splitEven, splitOneTwo, Rect.cells,
      Set.mem_setOf_eq, hmin] at hp ⊢; omega
  case _ => intro p hp hq; simp only [panelRegions, vertBands, splitEven, splitOneTwo, Rect.cells,
      Set.mem_setOf_eq, hmin] at hp hq; omega
  case _ => intro p hp hq; simp only [panelRegions, vertBands, splitEven, splitOneTwo, Rect.cells,
      Set.mem_setOf_eq, hmin] at hp hq; omega
  case _ => intro p hp hq; simp only [panelRegions, vertBands, splitEven, splitOneTwo, Rect.cells,
      Set.mem_setOf_eq, hmin] at hp hq; omega
  case _ => intro p hp hq; simp only [panelRegions, vertBands, splitEven, splitOneTwo, Rect.cells,
      Set.mem_setOf_eq, hmin] at hp hq; omega
  case _ => intro p hp hq; simp only [panelRegions, vertBands, splitEven, splitOneTwo, Rect.cells,
      Set.mem_setOf_eq, hmin] at hp hq; omega
  case _ => intro p hp hq; simp only [panelRegions, vertBands, splitEven, splitOneTwo, Rect.cells,
      Set.mem_setOf_eq, hmin] at hp hq; omega
  case _ =>
    refine ⟨(x, y), ?_, ?_, ?_, ?_, ?_⟩ <;>
      simp only [panelRegions, vertBands, splitEven, splitOneTwo, Rect.cells,
        Set.mem_setOf_eq, hmin] <;> omega

/-- C2 (witness): on a 120 by 40 Canvas the CPU and GPU regions are
disjoint. -/
theorem c2_witness :
    Rect.disjointWith (panelRegions ⟨0, 0, 120, 40⟩).cpu (panelRegions ⟨0, 0, 120, 40⟩).gpu :=
  (c2_panel_partition 0 0 120 40 (by norm_num) (by norm_num)).2.2.2.2.1

/-- C3: on a 120 by 40 Canvas with margin 4, the header band is row 4
spanning columns 4 to 115, and the top, mid and bottom bands partition rows
6 to 35 in proportion 1:2:1 (heights 7, 14, 7) with exactly one blank row
between consecutive bands. -/
theorem c3_canvas_120x40 :
    vertBands ⟨0, 0, 120, 40⟩
      = ⟨⟨4, 4, 112, 1⟩, ⟨4, 6, 112, 7⟩, ⟨4, 14, 112, 14⟩, ⟨4, 29, 112, 7⟩⟩
    ∧ (vertBands ⟨0, 0, 120, 40⟩).header.y = 4
    ∧ (vertBands ⟨0, 0, 120, 40⟩).header.height = 1
    ∧ (vertBands ⟨0, 0, 120, 40⟩).header.x = 4
    ∧ (vertBands ⟨0, 0, 120, 40⟩).header.x + (vertBands ⟨0, 0, 120, 40⟩).header.width - 1 = 115
    ∧ (vertBands ⟨0, 0, 120, 40⟩).top.y = 6
    ∧ (vertBands ⟨0, 0, 120, 40⟩).mid.height = 2 * (vertBands ⟨0, 0, 120, 40⟩).top.height
    ∧ (vertBands ⟨0, 0, 120, 40⟩).bottom.height = (vertBands ⟨0, 0, 120, 40⟩).top.height
    ∧ (vertBands ⟨0, 0, 120, 40⟩).mid.y
        = (vertBands ⟨0, 0, 120, 40⟩).top.y + (vertBands ⟨0, 0, 120, 40⟩).top.height + 1
    ∧ (vertBands ⟨0, 0, 120, 40⟩).bottom.y
        = (vertBands ⟨0, 0, 120, 40⟩).mid.y + (vertBands ⟨0, 0, 120, 40⟩).mid.height + 1
    ∧ (vertBands ⟨0, 0, 120, 40⟩).bottom.y + (vertBands ⟨0, 0, 120, 40⟩).bottom.height - 1
        = 35 := by
  decide

/-- C4 (counterexample): on a Canvas of height 8 the 4-cell margins leave no
interior row, so the header band has height 0, not 1 — the claim fails for
this Canvas size. -/
theorem c4_counterexample :
    (vertBands ⟨0, 0, 120, 8⟩).header.height = 0
    ∧ (vertBands ⟨0, 0, 120, 8⟩).header.height ≠ 1 := by
  decide

/-- C4 (amended): for every Canvas of height at least 9 (so the margins
leave at least one interior row), the header band has height exactly 1. -/
theorem c4_header_height (r : Rect) (h9 : 9 ≤ r.height) :
    (vertBands r).header.height = 1 := by
  simp only [vertBands]
  exact Nat.min_eq_left (by omega)

/-- C4 (amended, witness): on a 120 by 40 Canvas the header height is 1. -/
theorem c4_witness : (vertBands ⟨0, 0, 120, 40⟩).header.height = 1 :=
  c4_header_height ⟨0, 0, 120, 40⟩ (by norm_num)

/-- C5: for every Canvas whose mid band has width at least 6, the Memory
region of the 1:2 mid-band split with 2-cell spacing is at least as wide as
the Disk region. -/
theorem c5_memory_wider (r : Rect) (h6 : 6 ≤ (vertBands r).mid.width) :
    (panelRegions r).memory.width ≥ (panelRegions r).disk.width := by
  simp only [panelRegions, vertBands, splitOneTwo] at h6 ⊢
  omega

/-- C5 (witness): on a 120 by 40 Canvas, Memory (width 74) is at least as
wide as Disk (width 36). -/
theorem c5_witness :
    (panelRegions ⟨0, 0, 120, 40⟩).memory.width ≥ (panelRegions ⟨0, 0, 120, 40⟩).disk.width :=
  c5_memory_wider ⟨0, 0, 120, 40⟩ (by decide)

/-- C6 (counterexample): for an interior of width 32768 the u16 product
`inner.width * 2` wraps to 0, so the series is empty instead of having
65536 elements — the claim fails at this interior width. -/
theorem c6_counterexample :
    (sampleSeries (fun _ => (0 : ℝ)) 32768).length ≠ 32768 * 2 := by
  norm_num [sampleSeries, sampleCount]

/-- C6 (amended): for every graph panel interior width `w` with
`w * 2 < 2 ^ 16` (no u16 overflow), the Sample Series of one frame has
exactly `2 * w` elements, and, the random collaborator producing uniform
values in [0,1), every element lies in [0,1). -/
theorem c6_sample_series (rng : Nat → ℝ) (w : Nat) (hw : w * 2 < 65536)
    (hr : ∀ i, 0 ≤ rng i ∧ rng i < 1) :
    (sampleSeries rng w).length = w * 2
    ∧ ∀ v ∈ sampleSeries rng w, 0 ≤ v ∧ v < 1 := by
  constructor
  · simp [sampleSeries, sampleCount, Nat.mod_eq_of_lt hw]
  · intro v hv
    simp only [sampleSeries, List.mem_map, List.mem_range] at hv
    obtain ⟨i, _, rfl⟩ := hv
    exact hr i

/-- C6 (amended, witness): width 3 yields 6 samples, all in [0,1). -/
theorem c6_witness :
    (sampleSeries (fun _ => (0 : ℝ)) 3).length = 3 * 2
    ∧ ∀ v ∈ sampleSeries (fun _ => (0 : ℝ)) 3, 0 ≤ v ∧ v < 1 :=
  c6_sample_series (fun _ => (0 : ℝ)) 3 (by norm_num)
    (fun _ => ⟨le_refl 0, by norm_num⟩)

/-- C10: the per-panel sample count is `inner.width * 2` in 16-bit unsigned
arithmetic: for every interior width `w` below 2^16 the series length is
`w * 2 % 2 ^ 16`; when `w * 2 < 2 ^ 16` this is exactly `w * 2`, and
otherwise it wraps to `w * 2 - 2 ^ 16`, which differs from `w * 2`. -/
theorem c10_u16_wrap (rng : Nat → ℝ) (w : Nat) (hw : w < 65536) :
    (sampleSeries rng w).length = w * 2 % 65536
    ∧ (w * 2 < 65536 → (sampleSeries rng w).length = w * 2)
    ∧ (65536 ≤ w * 2 →
        (sampleSeries rng w).length = w * 2 - 65536
        ∧ (sampleSeries rng w).length ≠ w * 2) := by
  have hlen : (sampleSeries rng w).length = w * 2 % 65536 := by
    simp [sampleSeries, sampleCount]
  refine ⟨hlen, fun h => by omega, fun h => ⟨by omega, by omega⟩⟩

/-- C10 (witness): width 40000 wraps to 14464 samples, not 80000. -/
theorem c10_witness :
    (sampleSeries (fun _ => (0 : ℝ)) 40000).length = 40000 * 2 - 65536
    ∧ (sampleSeries (fun _ => (0 : ℝ)) 40000).length ≠ 40000 * 2 :=
  (c10_u16_wrap (fun _ => (0 : ℝ)) 40000 (by norm_num)).2.2 (by norm_num)

end BackgroundBlocks
